import Mathlib

/-!
# Weatherly (`src/app.js`): a shallow embedding

The weather dashboard is one script.  Its pure part (the code translator:
`getWeatherCondition`, `getWeatherDescription`, `getWeatherIconCode`,
`getWeatherIconClass`) is embedded as lookups in association lists that
repeat the object literals of the source.  Its stateful part (session
state, the page, the two network services) is embedded by explicit state
passing: every operation is a function `State → State`, run to completion
before the next one starts, and the outcome of each network request is
supplied by an environment `Env`.

Modelling conventions
* a weather code is `Option Int`: `some n` is the number `n`, `none` is
  `undefined` (an array slot that is not there);
* other JSON numbers are rationals, `Math.round x` is `⌊x + 1/2⌋`;
* a thrown exception is `Except.error` carrying the message of the error;
* what the script never computes itself (number formatting, date parsing,
  the weekday of a timestamp, the network) is a field of `Env`;
* `console.error` and the timer that removes an error notice are left out.
-/

namespace Weatherly

/-! ## Code translator -/

/-- The JavaScript expression `v || d` where `v` is the result of a property
lookup that yields a string or `undefined`: the empty string is falsy. -/
def orDefault (v : Option String) (d : String) : String :=
  match v with
  | some s => if s = "" then d else s
  | none => d

/-- Property lookup `table[code]` in an object literal whose keys are integer
literals.  `undefined` becomes the key "undefined", which no table has. -/
def lookupCode (table : List (Int × String)) (code : Option Int) : Option String :=
  match code with
  | some c => table.lookup c
  | none => none

/-- The object literal `conditions` of `getWeatherCondition`. -/
def conditions : List (Int × String) :=
  [ (0, "Clear"), (1, "Clear"), (2, "Clouds"), (3, "Clouds"),
    (45, "Mist"), (48, "Mist"),
    (51, "Drizzle"), (53, "Drizzle"), (55, "Drizzle"), (56, "Drizzle"), (57, "Drizzle"),
    (61, "Rain"), (63, "Rain"), (65, "Rain"), (66, "Rain"), (67, "Rain"),
    (71, "Snow"), (73, "Snow"), (75, "Snow"), (77, "Snow"),
    (80, "Rain"), (81, "Rain"), (82, "Rain"),
    (85, "Snow"), (86, "Snow"),
    (95, "Thunderstorm"), (96, "Thunderstorm"), (99, "Thunderstorm") ]

/-- Source: `getWeatherCondition(code)`, `return conditions[code] || 'Clear'`. -/
def getWeatherCondition (code : Option Int) : String :=
  orDefault (lookupCode conditions code) "Clear"

/-- The object literal `descriptions` of `getWeatherDescription`. -/
def descriptions : List (Int × String) :=
  [ (0, "Clear sky"), (1, "Mainly clear"), (2, "Partly cloudy"), (3, "Overcast"),
    (45, "Foggy"), (48, "Depositing rime fog"),
    (51, "Light drizzle"), (53, "Moderate drizzle"), (55, "Dense drizzle"),
    (56, "Light freezing drizzle"), (57, "Dense freezing drizzle"),
    (61, "Slight rain"), (63, "Moderate rain"), (65, "Heavy rain"),
    (66, "Light freezing rain"), (67, "Heavy freezing rain"),
    (71, "Slight snow fall"), (73, "Moderate snow fall"), (75, "Heavy snow fall"),
    (77, "Snow grains"),
    (80, "Slight rain showers"), (81, "Moderate rain showers"), (82, "Violent rain showers"),
    (85, "Slight snow showers"), (86, "Heavy snow showers"),
    (95, "Thunderstorm"), (96, "Thunderstorm with slight hail"),
    (99, "Thunderstorm with heavy hail") ]

/-- Source: `getWeatherDescription(code)`,
`return descriptions[code] || 'Clear sky'`. -/
def getWeatherDescription (code : Option Int) : String :=
  orDefault (lookupCode descriptions code) "Clear sky"

/-- The conditional `isDay ? d : n` that every entry of `iconMap` is made of. -/
def dayNight (isDay : Bool) (d n : String) : String :=
  if isDay then d else n

/-- The object literal `iconMap` of `getWeatherIconCode`; it is built anew on
every call, from the day flag. -/
def iconMap (isDay : Bool) : List (Int × String) :=
  [ (0, dayNight isDay "01d" "01n"), (1, dayNight isDay "01d" "01n"),
    (2, dayNight isDay "02d" "02n"), (3, dayNight isDay "03d" "03n"),
    (45, dayNight isDay "50d" "50n"), (48, dayNight isDay "50d" "50n"),
    (51, dayNight isDay "09d" "09n"), (53, dayNight isDay "09d" "09n"),
    (55, dayNight isDay "09d" "09n"), (56, dayNight isDay "09d" "09n"),
    (57, dayNight isDay "09d" "09n"),
    (61, dayNight isDay "10d" "10n"), (63, dayNight isDay "10d" "10n"),
    (65, dayNight isDay "10d" "10n"), (66, dayNight isDay "10d" "10n"),
    (67, dayNight isDay "10d" "10n"),
    (71, dayNight isDay "13d" "13n"), (73, dayNight isDay "13d" "13n"),
    (75, dayNight isDay "13d" "13n"), (77, dayNight isDay "13d" "13n"),
    (80, dayNight isDay "09d" "09n"), (81, dayNight isDay "09d" "09n"),
    (82, dayNight isDay "09d" "09n"),
    (85, dayNight isDay "13d" "13n"), (86, dayNight isDay "13d" "13n"),
    (95, dayNight isDay "11d" "11n"), (96, dayNight isDay "11d" "11n"),
    (99, dayNight isDay "11d" "11n") ]

/-- Source: `getWeatherIconCode(code, isDay = true)`,
`return iconMap[code] || (isDay ? '01d' : '01n')`. -/
def getWeatherIconCode (code : Option Int) (isDay : Bool) : String :=
  orDefault (lookupCode (iconMap isDay) code) (dayNight isDay "01d" "01n")

/-- The object literal `iconMap` of `getWeatherIconClass` (icon token to
Font Awesome class). -/
def iconClassMap : List (String × String) :=
  [ ("01d", "fas fa-sun"), ("01n", "fas fa-moon"),
    ("02d", "fas fa-cloud-sun"), ("02n", "fas fa-cloud-moon"),
    ("03d", "fas fa-cloud"), ("03n", "fas fa-cloud"),
    ("04d", "fas fa-cloud-meatball"), ("04n", "fas fa-cloud-meatball"),
    ("09d", "fas fa-cloud-rain"), ("09n", "fas fa-cloud-rain"),
    ("10d", "fas fa-cloud-sun-rain"), ("10n", "fas fa-cloud-moon-rain"),
    ("11d", "fas fa-bolt"), ("11n", "fas fa-bolt"),
    ("13d", "far fa-snowflake"), ("13n", "far fa-snowflake"),
    ("50d", "fas fa-smog"), ("50n", "fas fa-smog") ]

/-- Source: `getWeatherIconClass(iconCode)`,
`return iconMap[iconCode] || 'fas fa-question'`. -/
def getWeatherIconClass (iconCode : String) : String :=
  orDefault (iconClassMap.lookup iconCode) "fas fa-question"

/-- The codes that are a key of at least one of the three code tables. -/
def recognizedCodes : List Int :=
  (conditions.map Prod.fst ++ descriptions.map Prod.fst ++ (iconMap true).map Prod.fst).dedup

/-! ## Values exchanged with the two services -/

/-- One element of the `results` array of the geocoding response; `name` and
`country` are `undefined` when the service leaves them out. -/
structure GeoResult where
  latitude : Rat
  longitude : Rat
  name : Option String
  country : Option String
  deriving DecidableEq

/-- What `fetch(GEOCODING_URL...)` followed by `response.json()` can do. -/
inductive GeoOutcome where
  /-- The promise of `fetch` rejects (transport failure). -/
  | networkError
  /-- The promise of `response.json()` rejects, or the body is `null`. -/
  | invalidBody
  /-- A JSON object; `results` is `none` when the property is missing. -/
  | body (results : Option (List GeoResult))

/-- The object returned by `getCoordinatesForLocation`. -/
structure Location where
  latitude : Rat
  longitude : Rat
  name : Option String
  country : Option String
  deriving DecidableEq

/-- The property `current` of the weather response. -/
structure RawCurrent where
  temperature_2m : Rat
  apparent_temperature : Rat
  relative_humidity_2m : Rat
  pressure_msl : Rat
  wind_speed_10m : Rat
  weather_code : Option Int

/-- The property `daily` of the weather response: parallel arrays.  The four
arrays are there when `daily` is; they need not have the same length, and a
slot that is missing reads as `undefined`. -/
structure RawDaily where
  time : List String
  weather_code : List Int
  temperature_2m_max : List Rat
  temperature_2m_min : List Rat

/-- The body of the weather response; a property that is missing is `none`. -/
structure RawWeather where
  current : Option RawCurrent
  daily : Option RawDaily

/-- The parameters of the weather query that vary (`URLSearchParams` of
`getWeatherByCoords`); the field lists, `timezone` and `forecast_days` are
constants. -/
structure WeatherRequest where
  latitude : Rat
  longitude : Rat
  temperature_unit : String
  wind_speed_unit : String
  deriving DecidableEq

/-- What `fetch(BASE_URL...)`, the test of `response.ok` and
`response.json()` can do. -/
inductive WeatherOutcome where
  /-- The promise of `fetch` rejects. -/
  | networkError
  /-- The response arrives with `response.ok` false. -/
  | notOk
  /-- The promise of `response.json()` rejects, or the body is `null`. -/
  | invalidBody
  /-- A JSON object. -/
  | body (data : RawWeather)

/-- What `navigator.geolocation` does when `getLocation` runs. -/
inductive GeolocationOutcome where
  /-- The property `navigator.geolocation` is missing. -/
  | unsupported
  /-- The error callback of `getCurrentPosition` runs. -/
  | denied
  /-- The success callback runs with these coordinates. -/
  | position (latitude longitude : Rat)

/-- Everything the script asks of its surroundings. -/
structure Env where
  /-- Outcome of the geocoding query for a place name. -/
  geocode : String → GeoOutcome
  /-- Outcome of the weather query. -/
  forecast : WeatherRequest → WeatherOutcome
  /-- Outcome of the geolocation request. -/
  geolocation : GeolocationOutcome
  /-- The value `new Date(time).getTime() / 1000`. -/
  dateToUnix : String → Int
  /-- The value `new Date(dt * 1000).toLocaleDateString('en-US', ...)` with
  the short weekday option. -/
  weekdayShort : Int → String
  /-- Conversion of a number to text inside a template literal. -/
  numberToString : Rat → String

/-! ## Normalised data -/

/-- The single element of a `weather` array.  `main` is `none` where the
object literal does not set the property. -/
structure WeatherEntry where
  main : Option String
  description : String
  icon : String
  deriving DecidableEq

/-- The object `currentData.current`. -/
structure CurrentFields where
  temp : Rat
  feels_like : Rat
  humidity : Rat
  pressure : Int
  wind_speed : Rat
  weather : WeatherEntry
  deriving DecidableEq

/-- The object `currentData`. -/
structure CurrentData where
  current : CurrentFields
  name : String
  country : String
  deriving DecidableEq

/-- The object `main` of a forecast entry; a temperature is `none` when the
array of the response has no slot at that index. -/
structure ForecastTemps where
  temp_max : Option Rat
  temp_min : Option Rat
  deriving DecidableEq

/-- One element of `forecastData.list`. -/
structure ForecastDay where
  dt : Int
  main : ForecastTemps
  weather : WeatherEntry
  deriving DecidableEq

/-- The object `forecastData`. -/
structure ForecastData where
  list : List ForecastDay
  deriving DecidableEq

/-! ## The page and the session state -/

/-- One `div.forecast-item` appended to the forecast container, by the parts
of its template. -/
structure ForecastItem where
  dayName : String
  icon : String
  condition : String
  tempMax : String
  tempMin : String
  deriving DecidableEq

/-- The part of the document the script writes to.  The unit buttons are
identified by their `data-unit`. -/
structure Dom where
  location : String
  currentTemp : String
  weatherCondition : String
  weatherIcon : String
  feelsLike : String
  wind : String
  humidity : String
  pressure : String
  forecastContainer : List ForecastItem
  bodyClasses : List String
  loadingActive : Bool
  errorMessage : Option String
  locationInput : String
  activeUnitButtons : List String
  deriving DecidableEq

/-- What an operation does that an observer outside the page can see, in
the order it happens. -/
inductive Event where
  | loading (active : Bool)
  | geocodeRequest (name : String)
  | weatherRequest (req : WeatherRequest)
  | error (message : String)
  deriving DecidableEq

/-- The two globals `currentUnit` and `currentLocation`, the page, and the
history of events. -/
structure State where
  currentUnit : String
  currentLocation : Option String
  dom : Dom
  log : List Event
  deriving DecidableEq

/-- Truthiness of a value that is a string, `null` or `undefined`. -/
def truthy (v : Option String) : Bool :=
  match v with
  | some s => s != ""
  | none => false

/-- Source: `Math.round`. -/
def mathRound (x : Rat) : Int :=
  Rat.floor (x + 1 / 2)

/-- The text of `Math.round(v)` in a template literal; `Math.round(undefined)`
is `NaN`. -/
def roundText (v : Option Rat) : String :=
  match v with
  | some x => toString (mathRound x)
  | none => "NaN"

/-- Source: `tempUnit` of `updateCurrentWeather` and `updateForecast`. -/
def tempUnit (currentUnit : String) : String :=
  if currentUnit = "metric" then "°C" else "°F"

/-- Source: `speedUnit` of `updateCurrentWeather`. -/
def speedUnit (currentUnit : String) : String :=
  if currentUnit = "metric" then "m/s" else "mph"

/-- Source: `showLoading(show)`. -/
def showLoading (active : Bool) (st : State) : State :=
  { st with dom := { st.dom with loadingActive := active },
            log := st.log ++ [Event.loading active] }

/-- Source: `showError(message)`; the timer that removes the notice after
five seconds is left out. -/
def showError (message : String) (st : State) : State :=
  { st with dom := { st.dom with errorMessage := some message },
            log := st.log ++ [Event.error message] }

/-- Record an event that is not a change of the page (a network request). -/
def logEvent (e : Event) (st : State) : State :=
  { st with log := st.log ++ [e] }

/-! ## Location resolver -/

/-- The body of the `try` block of `getCoordinatesForLocation`, after the
request has been sent: the value it returns or the message of what it
throws. -/
def parseGeocoding (outcome : GeoOutcome) : Except String Location :=
  match outcome with
  | GeoOutcome.networkError => Except.error "Failed to fetch"
  | GeoOutcome.invalidBody => Except.error "Unexpected end of JSON input"
  | GeoOutcome.body none => Except.error "Location not found"
  | GeoOutcome.body (some []) => Except.error "Location not found"
  | GeoOutcome.body (some (r :: _)) =>
      Except.ok { latitude := r.latitude, longitude := r.longitude,
                  name := r.name, country := r.country }

/-- Source: `getCoordinatesForLocation(location)`.  One request; whatever is
thrown inside `try` is caught and replaced by the error
'Could not find the specified location'. -/
def getCoordinatesForLocation (env : Env) (location : String) (st : State) :
    Except String Location × State :=
  let st1 := logEvent (Event.geocodeRequest location) st
  match parseGeocoding (env.geocode location) with
  | Except.ok loc => (Except.ok loc, st1)
  | Except.error _ => (Except.error "Could not find the specified location", st1)

/-! ## Presenter -/

/-- Source: `getWeatherIcon(iconCode)`, and the markup that `updateWeatherIcon`
assigns to `innerHTML`. -/
def getWeatherIcon (iconCode : String) : String :=
  "<i class=\"" ++ getWeatherIconClass iconCode ++ "\"></i>"

/-- The classes that `updateBackground` removes from the body. -/
def weatherClasses : List String :=
  [ "clear-sky", "few-clouds", "scattered-clouds", "broken-clouds",
    "shower-rain", "rain", "thunderstorm", "snow", "mist" ]

/-- The object literal `conditionMap` of `updateBackground`. -/
def conditionMap : List (String × String) :=
  [ ("Clear", "clear-sky"), ("Clouds", "scattered-clouds"), ("Drizzle", "shower-rain"),
    ("Rain", "rain"), ("Thunderstorm", "thunderstorm"), ("Snow", "snow"),
    ("Mist", "mist"), ("Smoke", "mist"), ("Haze", "mist"), ("Dust", "mist"),
    ("Fog", "mist"), ("Sand", "mist"), ("Ash", "mist"), ("Squall", "mist"),
    ("Tornado", "thunderstorm") ]

/-- The expression `conditionMap[weatherCondition] || ''` of
`updateBackground`; `undefined` is looked up as the key "undefined". -/
def weatherClass (weatherCondition : Option String) : String :=
  match weatherCondition with
  | some c => orDefault (conditionMap.lookup c) ""
  | none => ""

/-- Source: `classList.add(cls)`: a class is not added twice. -/
def classListAdd (classes : List String) (cls : String) : List String :=
  if cls ∈ classes then classes else classes ++ [cls]

/-- Source: `updateBackground(weatherCondition)`. -/
def updateBackground (weatherCondition : Option String) (st : State) : State :=
  let removed := st.dom.bodyClasses.filter (fun c => !weatherClasses.contains c)
  let cls := weatherClass weatherCondition
  let classes := if cls = "" then removed else classListAdd removed cls
  { st with dom := { st.dom with bodyClasses := classes } }

/-- Source: `split(' ')` on the characters of a string. -/
def splitSpaces : List Char → List (List Char)
  | [] => [[]]
  | c :: cs =>
    if c = ' ' then [] :: splitSpaces cs
    else match splitSpaces cs with
      | [] => [[c]]
      | w :: ws => (c :: w) :: ws

/-- Source: `word.charAt(0).toUpperCase() + word.slice(1)`. -/
def capitalizeWord : List Char → List Char
  | [] => []
  | c :: cs => c.toUpper :: cs

/-- Source: the expression assigned to `weatherConditionElement.textContent`:
split at spaces, capitalise every word, join with spaces. -/
def titleCase (description : String) : String :=
  String.mk (List.intercalate [' '] ((splitSpaces description.toList).map capitalizeWord))

/-- Source: `updateCurrentWeather(data)`. -/
def updateCurrentWeather (env : Env) (data : CurrentData) (st : State) : State :=
  let tUnit := tempUnit st.currentUnit
  let sUnit := speedUnit st.currentUnit
  let current := data.current
  let dom1 : Dom :=
    { st.dom with
      location := if data.country = "" then data.name else data.name ++ ", " ++ data.country,
      currentTemp := roundText (some current.temp) ++ tUnit,
      weatherCondition := titleCase current.weather.description,
      weatherIcon := getWeatherIcon current.weather.icon,
      feelsLike := roundText (some current.feels_like) ++ tUnit,
      wind := env.numberToString current.wind_speed ++ " " ++ sUnit,
      humidity := env.numberToString current.humidity ++ "%",
      pressure := toString current.pressure ++ " hPa" }
  updateBackground current.weather.main { st with dom := dom1 }

/-- Source: `Array.prototype.slice(start, end)` for indices that are not
negative. -/
def slice {α : Type} (xs : List α) (start stop : Nat) : List α :=
  (xs.take stop).drop start

/-- The forecast item that the body of the `forEach` of `updateForecast`
builds for one day. -/
def forecastItem (env : Env) (tUnit : String) (day : ForecastDay) : ForecastItem :=
  { dayName := env.weekdayShort day.dt,
    icon := getWeatherIcon day.weather.icon,
    condition := match day.weather.main with
      | some m => m
      | none => "undefined",
    tempMax := roundText day.main.temp_max ++ tUnit,
    tempMin := roundText day.main.temp_min ++ tUnit }

/-- Source: `forecastContainer.appendChild(forecastItem)`. -/
def appendForecastItem (item : ForecastItem) (st : State) : State :=
  { st with dom := { st.dom with forecastContainer := st.dom.forecastContainer ++ [item] } }

/-- Source: `updateForecast(data)`: empty the container, then append one item
for every element of `data.list.slice(1, 6)`. -/
def updateForecast (env : Env) (data : ForecastData) (st : State) : State :=
  let st1 := { st with dom := { st.dom with forecastContainer := [] } }
  let tUnit := tempUnit st1.currentUnit
  let forecastDays := slice data.list 1 6
  forecastDays.foldl (fun s day => appendForecastItem (forecastItem env tUnit day) s) st1

/-! ## Weather fetcher -/

/-- The object literal `currentData` of `getWeatherByCoords`.  Its `weather`
entry has a `description` and an `icon` and no `main`. -/
def buildCurrentData (cur : RawCurrent) (locationName country : Option String) : CurrentData :=
  { current :=
      { temp := cur.temperature_2m,
        feels_like := cur.apparent_temperature,
        humidity := cur.relative_humidity_2m,
        pressure := mathRound cur.pressure_msl,
        wind_speed := cur.wind_speed_10m,
        weather :=
          { main := none,
            description := getWeatherDescription cur.weather_code,
            icon := getWeatherIconCode cur.weather_code true } },
    name := if truthy locationName then locationName.getD "" else "Current Location",
    country := if truthy country then country.getD "" else "" }

/-- The object literal `forecastData` of `getWeatherByCoords`:
`data.daily.time.map((time, index) => ...)`. -/
def buildForecastData (env : Env) (daily : RawDaily) : ForecastData :=
  { list := daily.time.mapIdx (fun index time =>
      { dt := env.dateToUnix time,
        main := { temp_max := daily.temperature_2m_max[index]?,
                  temp_min := daily.temperature_2m_min[index]? },
        weather :=
          { main := some (getWeatherCondition daily.weather_code[index]?),
            description := getWeatherDescription daily.weather_code[index]?,
            icon := getWeatherIconCode daily.weather_code[index]? false } }) }

/-- The query of `getWeatherByCoords`, from the coordinates and the current
unit. -/
def weatherRequest (lat lon : Rat) (currentUnit : String) : WeatherRequest :=
  { latitude := lat, longitude := lon,
    temperature_unit := if currentUnit = "metric" then "celsius" else "fahrenheit",
    wind_speed_unit := if currentUnit = "metric" then "ms" else "mph" }

/-- The rest of the `try` block of `getWeatherByCoords` once the request has
been sent: the state it leaves, or the message of what it throws.  Nothing
is written to the page before the last point where it can throw. -/
def renderWeather (env : Env) (outcome : WeatherOutcome) (locationName country : Option String)
    (st : State) : Except String State :=
  match outcome with
  | WeatherOutcome.networkError => Except.error "Failed to fetch"
  | WeatherOutcome.notOk => Except.error "Weather data not available"
  | WeatherOutcome.invalidBody => Except.error "Unexpected end of JSON input"
  | WeatherOutcome.body data =>
    match data.current with
    | none => Except.error "Cannot read properties of undefined"
    | some cur =>
      match data.daily with
      | none => Except.error "Cannot read properties of undefined"
      | some daily =>
        let currentData := buildCurrentData cur locationName country
        let forecastData := buildForecastData env daily
        let st1 := updateCurrentWeather env currentData st
        let st2 := updateForecast env forecastData st1
        Except.ok (if truthy locationName then { st2 with currentLocation := locationName } else st2)

/-- Source: `getWeatherByCoords(lat, lon, locationName = null, country = null)`. -/
def getWeatherByCoords (env : Env) (lat lon : Rat) (locationName country : Option String)
    (st : State) : State :=
  let st1 := showLoading true st
  let req := weatherRequest lat lon st1.currentUnit
  let st2 := logEvent (Event.weatherRequest req) st1
  let st3 := match renderWeather env (env.forecast req) locationName country st2 with
    | Except.ok s => s
    | Except.error _ => showError "Unable to fetch weather data. Please try again." st2
  showLoading false st3

/-! ## Orchestrator -/

/-- Source: `getWeatherByLocation(location)`. -/
def getWeatherByLocation (env : Env) (location : String) (st : State) : State :=
  let st1 := showLoading true st
  let st2 := match getCoordinatesForLocation env location st1 with
    | (Except.ok locationData, s) =>
      let s1 := getWeatherByCoords env locationData.latitude locationData.longitude
        locationData.name locationData.country s
      { s1 with dom := { s1.dom with locationInput := "" } }
    | (Except.error _, s) =>
      showError "Could not find the specified location. Please try again." s
  showLoading false st2

/-- Source: `getLocation()`. -/
def getLocation (env : Env) (st : State) : State :=
  match env.geolocation with
  | GeolocationOutcome.position latitude longitude =>
    getWeatherByCoords env latitude longitude none none (showLoading true st)
  | GeolocationOutcome.denied =>
    let st1 := showLoading true st
    let st2 := showError
      "Unable to retrieve your location. Please try again or search for a city." st1
    getWeatherByLocation env "London" (showLoading false st2)
  | GeolocationOutcome.unsupported =>
    getWeatherByLocation env "London" (showError
      "Geolocation is not supported by your browser. Please search for a city." st)

/-- The characters that `String.prototype.trim` removes: the white space and
the line terminators of ECMAScript. -/
def isWhiteSpace (c : Char) : Bool :=
  [0x0009, 0x000A, 0x000B, 0x000C, 0x000D, 0x0020, 0x00A0, 0x1680, 0x2028, 0x2029,
    0x202F, 0x205F, 0x3000, 0xFEFF].contains c.toNat
  || (decide (0x2000 ≤ c.toNat) && decide (c.toNat ≤ 0x200A))

/-- Source: `String.prototype.trim`: white space is removed at both ends. -/
def trim (text : String) : String :=
  String.mk ((text.toList.dropWhile isWhiteSpace).reverse.dropWhile isWhiteSpace).reverse

/-- Source: the click handler of the search button and the Enter key handler
of the input: both read the trimmed text of the input. -/
def searchSubmit (env : Env) (st : State) : State :=
  let location := trim st.dom.locationInput
  if location = "" then st else getWeatherByLocation env location st

/-- Source: the click handler of a unit button whose `data-unit` is `unit`. -/
def unitToggleClick (env : Env) (unit : String) (st : State) : State :=
  if unit ≠ st.currentUnit then
    let st1 := { st with dom := { st.dom with activeUnitButtons := [unit] } }
    let st2 := { st1 with currentUnit := unit }
    match st2.currentLocation with
    | some loc => if loc = "" then st2 else getWeatherByLocation env loc st2
    | none => st2
  else st

/-- Source: `getWeatherByCoords` up to its `await fetch(...)`: the loading
indicator is switched on, the query is built from the current unit and
sent.  In this state the operation waits for the response. -/
def getWeatherByCoordsPending (lat lon : Rat) (st : State) : State :=
  let st1 := showLoading true st
  logEvent (Event.weatherRequest (weatherRequest lat lon st1.currentUnit)) st1

/-- Source: `getWeatherByCoords` from the response on: the rest of `try`,
then `catch` and `finally`. -/
def getWeatherByCoordsResume (env : Env) (outcome : WeatherOutcome)
    (locationName country : Option String) (pending : State) : State :=
  let st3 := match renderWeather env outcome locationName country pending with
    | Except.ok s => s
    | Except.error _ => showError "Unable to fetch weather data. Please try again." pending
  showLoading false st3

/-- Source: `getWeatherByLocation` up to the first `await fetch(...)` it
reaches, the one inside `getCoordinatesForLocation`: the loading indicator
is switched on and the geocoding query is sent. -/
def getWeatherByLocationPending (location : String) (st : State) : State :=
  let st1 := showLoading true st
  logEvent (Event.geocodeRequest location) st1

/-- Source: `getWeatherByLocation` from the geocoding response on: the rest
of `getCoordinatesForLocation`, the rest of `try`, then `catch` and
`finally`. -/
def getWeatherByLocationResume (env : Env) (outcome : GeoOutcome) (pending : State) : State :=
  let st2 := match parseGeocoding outcome with
    | Except.ok locationData =>
      let s1 := getWeatherByCoords env locationData.latitude locationData.longitude
        locationData.name locationData.country pending
      { s1 with dom := { s1.dom with locationInput := "" } }
    | Except.error _ =>
      showError "Could not find the specified location. Please try again." pending
  showLoading false st2

/-- What the user can do on the page. -/
inductive Action where
  /-- Type `text` into the input and submit it (button or Enter key). -/
  | search (text : String)
  /-- Click the location button. -/
  | geolocate
  /-- Click the unit button whose `data-unit` is `unit`. -/
  | toggle (unit : String)

/-- One user action, run to completion. -/
def step (env : Env) (a : Action) (st : State) : State :=
  match a with
  | Action.search text =>
    searchSubmit env { st with dom := { st.dom with locationInput := text } }
  | Action.geolocate => getLocation env st
  | Action.toggle unit => unitToggleClick env unit st

/-- The state when the script has been evaluated: `currentUnit = 'metric'`,
`currentLocation = null`, over the page as the markup gives it. -/
def initialState (dom : Dom) : State :=
  { currentUnit := "metric", currentLocation := none, dom := dom, log := [] }

/-- Source: the `DOMContentLoaded` listener, which calls `getLocation()`. -/
def pageLoad (env : Env) (dom : Dom) : State :=
  getLocation env (initialState dom)

/-- A sequence of user actions, each under the environment of its moment. -/
def run (st : State) : List (Env × Action) → State
  | [] => st
  | (env, a) :: rest => run (step env a st) rest

/-- The first two characters of an icon token: its family. -/
def iconFamily (token : String) : String :=
  String.mk (token.toList.take 2)

/-- The text `needle` occurs somewhere in `text`. -/
def containsText (text needle : String) : Prop :=
  needle.toList <:+: text.toList

instance (text needle : String) : Decidable (containsText text needle) :=
  inferInstanceAs (Decidable (needle.toList <:+: text.toList))

/-- The events that happened between the state `before` and the later state
`after`. -/
def newEvents (before after : State) : List Event :=
  after.log.drop before.log.length

/-- The event is a geocoding query. -/
def Event.isGeocodeRequest : Event → Bool
  | Event.geocodeRequest _ => true
  | _ => false

/-- The event is a weather query. -/
def Event.isWeatherRequest : Event → Bool
  | Event.weatherRequest _ => true
  | _ => false

/-- The part of the page that shows weather: the eight text fields of the
current conditions, the forecast items and the theme classes of the body. -/
def renderedWeather (d : Dom) : List String × List ForecastItem × List String :=
  ([d.location, d.currentTemp, d.weatherCondition, d.weatherIcon, d.feelsLike, d.wind,
    d.humidity, d.pressure], d.forecastContainer, d.bodyClasses)

/-! ## Sample values for the concrete instances -/

/-- A page on which nothing has been rendered yet. -/
def emptyDom : Dom :=
  { location := "", currentTemp := "", weatherCondition := "", weatherIcon := "",
    feelsLike := "", wind := "", humidity := "", pressure := "",
    forecastContainer := [], bodyClasses := [], loadingActive := false,
    errorMessage := none, locationInput := "", activeUnitButtons := ["metric"] }

/-- Six days of daily data, the first with code 0. -/
def sampleDaily : RawDaily :=
  { time := ["2024-05-01", "2024-05-02", "2024-05-03", "2024-05-04", "2024-05-05", "2024-05-06"],
    weather_code := [0, 3, 61, 95, 71, 45],
    temperature_2m_max := [20, 21, 19, 18, 5, 12],
    temperature_2m_min := [10, 11, 9, 8, -2, 6] }

/-- A weather response whose current weather code is 3. -/
def sampleWeather : RawWeather :=
  { current := some
      { temperature_2m := 20, apparent_temperature := 19, relative_humidity_2m := 60,
        pressure_msl := 1013, wind_speed_10m := 4, weather_code := some 3 },
    daily := some sampleDaily }

/-- An environment in which geolocation gives coordinates, the geocoder knows
London only, and every weather query is answered with `sampleWeather`. -/
def sampleEnv : Env :=
  { geocode := fun name =>
      if name = "London" then
        GeoOutcome.body (some [{ latitude := 103 / 2, longitude := -3 / 25,
                                 name := some "London", country := some "GB" }])
      else GeoOutcome.body (some []),
    forecast := fun _ => WeatherOutcome.body sampleWeather,
    geolocation := GeolocationOutcome.position 48 2,
    dateToUnix := fun _ => 0,
    weekdayShort := fun _ => "Thu",
    numberToString := fun q => toString q.num }

/-- The icon tokens that `getWeatherIconCode` can return under a day flag. -/
def iconTokens (isDay : Bool) : List String :=
  if isDay then ["01d", "02d", "03d", "50d", "09d", "10d", "13d", "11d"]
  else ["01n", "02n", "03n", "50n", "09n", "10n", "13n", "11n"]

/-- Six normalised forecast days. -/
def sampleForecast : ForecastData :=
  buildForecastData sampleEnv sampleDaily

/-- A state whose forecast container still holds an item of an earlier
rendering. -/
def staleForecastState : State :=
  { initialState emptyDom with
    dom := { emptyDom with
      forecastContainer := [{ dayName := "Mon", icon := "", condition := "Rain",
                              tempMax := "1°C", tempMin := "0°C" }] } }

/-- A state in which London is the current location, under the metric unit. -/
def londonState : State :=
  { initialState emptyDom with currentLocation := some "London" }

/-- The state after the page has geolocated the user and the user has then
clicked the imperial button; every fetch succeeds. -/
def geolocateThenToggle : State :=
  run (initialState emptyDom)
    [(sampleEnv, Action.geolocate), (sampleEnv, Action.toggle "imperial")]

/-- The state after a search for London from the initial state over an empty
page, in the sample environment. -/
def londonSearch : State :=
  run (initialState emptyDom) [(sampleEnv, Action.search "London")]

/-! ## Lemmas on the code translator -/

theorem lookup_eq_none_of_not_mem_keys {β : Type} (table : List (Int × β)) (k : Int)
    (h : k ∉ table.map Prod.fst) : table.lookup k = none := by
  induction table with
  | nil => rfl
  | cons p rest ih =>
    obtain ⟨a, b⟩ := p
    simp only [List.map_cons, List.mem_cons, not_or] at h
    have hne : (k == a) = false := by simpa using h.1
    simp [List.lookup, hne, ih h.2]

/-- The three code tables have the same keys. -/
theorem tables_same_keys (isDay : Bool) :
    conditions.map Prod.fst = recognizedCodes ∧
    descriptions.map Prod.fst = recognizedCodes ∧
    (iconMap isDay).map Prod.fst = recognizedCodes := by
  revert isDay
  decide

theorem lookupCode_unrecognized (code : Int) (isDay : Bool) (h : code ∉ recognizedCodes) :
    lookupCode conditions (some code) = none ∧
    lookupCode descriptions (some code) = none ∧
    lookupCode (iconMap isDay) (some code) = none := by
  obtain ⟨h1, h2, h3⟩ := tables_same_keys isDay
  refine ⟨?_, ?_, ?_⟩
  · exact lookup_eq_none_of_not_mem_keys _ _ (h1 ▸ h)
  · exact lookup_eq_none_of_not_mem_keys _ _ (h2 ▸ h)
  · exact lookup_eq_none_of_not_mem_keys _ _ (h3 ▸ h)

theorem iconCode_mem_recognized :
    ∀ c ∈ recognizedCodes, ∀ isDay : Bool,
      getWeatherIconCode (some c) isDay ∈ iconTokens isDay := by
  decide

theorem iconCode_mem_iconTokens (code : Option Int) (isDay : Bool) :
    getWeatherIconCode code isDay ∈ iconTokens isDay := by
  cases code with
  | none => cases isDay <;> decide
  | some c =>
    by_cases h : c ∈ recognizedCodes
    · exact iconCode_mem_recognized c h isDay
    · have h3 := (lookupCode_unrecognized c isDay h).2.2
      unfold getWeatherIconCode
      rw [h3]
      cases isDay <;> decide

/-! ## Theorems -/

/-- C1: for an integer weather code that is a key of none of the lookup
tables, and for both values of the day flag, `getWeatherCondition` returns
"Clear", `getWeatherDescription` returns "Clear sky" and `getWeatherIconCode`
returns the default clear token, "01d" by day and "01n" by night.  The three
functions are total, so none of them fails. -/
theorem unrecognized_code_fallback (code : Int) (isDay : Bool)
    (h : code ∉ recognizedCodes) :
    getWeatherCondition (some code) = "Clear" ∧
    getWeatherDescription (some code) = "Clear sky" ∧
    getWeatherIconCode (some code) isDay = (if isDay then "01d" else "01n") := by
  obtain ⟨h1, h2, h3⟩ := lookupCode_unrecognized code isDay h
  unfold getWeatherCondition getWeatherDescription getWeatherIconCode
  rw [h1, h2, h3]
  exact ⟨rfl, rfl, rfl⟩

/-- Instance of C1 at the code 777, by night. -/
theorem unrecognized_code_fallback_witness :
    (777 : Int) ∉ recognizedCodes ∧
    getWeatherCondition (some 777) = "Clear" ∧
    getWeatherDescription (some 777) = "Clear sky" ∧
    getWeatherIconCode (some 777) false = (if false then "01d" else "01n") :=
  ⟨by decide, unrecognized_code_fallback 777 false (by decide)⟩

/-- C2: for a code that is a key of one of the three tables and for both
values of the day flag, the icon family agrees with the category (01 iff
Clear, 02 or 03 iff Clouds, 50 iff Mist, 13 iff Snow, 11 iff Thunderstorm, 09
and 10 only for Drizzle or Rain), and a code of category Thunderstorm has a
description containing "Thunderstorm" and an icon token that
`getWeatherIconClass` maps to the bolt glyph. -/
theorem recognized_code_consistent (code : Int) (isDay : Bool)
    (h : code ∈ recognizedCodes) :
    (iconFamily (getWeatherIconCode (some code) isDay) = "01" ↔
      getWeatherCondition (some code) = "Clear") ∧
    (iconFamily (getWeatherIconCode (some code) isDay) = "02" ∨
      iconFamily (getWeatherIconCode (some code) isDay) = "03" ↔
      getWeatherCondition (some code) = "Clouds") ∧
    (iconFamily (getWeatherIconCode (some code) isDay) = "50" ↔
      getWeatherCondition (some code) = "Mist") ∧
    (iconFamily (getWeatherIconCode (some code) isDay) = "13" ↔
      getWeatherCondition (some code) = "Snow") ∧
    (iconFamily (getWeatherIconCode (some code) isDay) = "11" ↔
      getWeatherCondition (some code) = "Thunderstorm") ∧
    (iconFamily (getWeatherIconCode (some code) isDay) = "09" ∨
      iconFamily (getWeatherIconCode (some code) isDay) = "10" →
      getWeatherCondition (some code) = "Drizzle" ∨
      getWeatherCondition (some code) = "Rain") ∧
    (getWeatherCondition (some code) = "Thunderstorm" →
      containsText (getWeatherDescription (some code)) "Thunderstorm" ∧
      getWeatherIconClass (getWeatherIconCode (some code) isDay) = "fas fa-bolt") := by
  revert isDay
  revert code
  decide

/-- Instance of C2 at the code 95, by day. -/
theorem recognized_code_consistent_witness :
    (95 : Int) ∈ recognizedCodes ∧
    getWeatherCondition (some 95) = "Thunderstorm" ∧
    containsText (getWeatherDescription (some 95)) "Thunderstorm" ∧
    getWeatherIconClass (getWeatherIconCode (some 95) true) = "fas fa-bolt" :=
  ⟨by decide, by decide,
    (recognized_code_consistent 95 true (by decide)).2.2.2.2.2.2 (by decide)⟩

/-- C10: for every integer weather code, recognized or not, and both values
of the day flag, the token returned by `getWeatherIconCode` is a key of the
glyph table of `getWeatherIconClass`, and the composition never returns the
unknown glyph "fas fa-question". -/
theorem icon_token_has_glyph (code : Int) (isDay : Bool) :
    getWeatherIconCode (some code) isDay ∈ iconClassMap.map Prod.fst ∧
    getWeatherIconClass (getWeatherIconCode (some code) isDay) ≠ "fas fa-question" := by
  have hmem := iconCode_mem_iconTokens (some code) isDay
  have hall : ∀ d : Bool, ∀ t ∈ iconTokens d,
      t ∈ iconClassMap.map Prod.fst ∧ getWeatherIconClass t ≠ "fas fa-question" := by
    decide
  exact hall isDay _ hmem


/-! ## Lemmas on the presenter -/

theorem foldl_appendForecastItem (f : ForecastDay → ForecastItem) (days : List ForecastDay)
    (st : State) :
    days.foldl (fun s day => appendForecastItem (f day) s) st =
      { st with dom := { st.dom with
          forecastContainer := st.dom.forecastContainer ++ days.map f } } := by
  induction days generalizing st with
  | nil => simp
  | cons d rest ih =>
    rw [List.foldl_cons, ih]
    simp [appendForecastItem]

theorem updateForecast_container (env : Env) (data : ForecastData) (st : State) :
    (updateForecast env data st).dom.forecastContainer =
      (slice data.list 1 6).map (forecastItem env (tempUnit st.currentUnit)) := by
  unfold updateForecast
  simp only [foldl_appendForecastItem]
  simp

theorem slice_one_six_length {α : Type} (xs : List α) :
    (slice xs 1 6).length = min 5 (xs.length - 1) := by
  unfold slice
  simp only [List.length_drop, List.length_take]
  omega

theorem slice_one_six_getElem? {α : Type} (xs : List α) (i : Nat) (h : i < 5) :
    (slice xs 1 6)[i]? = xs[i + 1]? := by
  unfold slice
  rw [List.getElem?_drop, List.getElem?_take_of_lt (by omega), Nat.add_comm]

theorem updateBackground_undefined_no_theme (st : State) (c : String)
    (hc : c ∈ weatherClasses) : c ∉ (updateBackground none st).dom.bodyClasses := by
  intro hmem
  simp only [updateBackground, weatherClass, if_true] at hmem
  rw [List.mem_filter] at hmem
  simp [hc] at hmem

/-- C3: for a forecast sequence of length n ≥ 1, whatever the container held
before, after `updateForecast` it holds exactly min(5, n - 1) items, and the
item at position i shows the input entry at index i + 1 (its weekday, the
glyph of its icon token, its condition label, its rounded maximum and minimum
with the unit suffix): the entries 1 .. min(5, n - 1) in input order, never
the entry at index 0. -/
theorem updateForecast_renders (env : Env) (data : ForecastData) (st : State)
    (h : 1 ≤ data.list.length) :
    (updateForecast env data st).dom.forecastContainer.length
      = min 5 (data.list.length - 1) ∧
    ∀ i : Nat, i < min 5 (data.list.length - 1) →
      i + 1 < data.list.length ∧
      (updateForecast env data st).dom.forecastContainer[i]?
        = data.list[i + 1]?.map (fun day =>
            ({ dayName := env.weekdayShort day.dt,
               icon := "<i class=\"" ++ getWeatherIconClass day.weather.icon ++ "\"></i>",
               condition := day.weather.main.getD "undefined",
               tempMax := roundText day.main.temp_max ++
                 (if st.currentUnit = "metric" then "°C" else "°F"),
               tempMin := roundText day.main.temp_min ++
                 (if st.currentUnit = "metric" then "°C" else "°F") } : ForecastItem)) := by
  have hitem : forecastItem env (tempUnit st.currentUnit) = fun day =>
      ({ dayName := env.weekdayShort day.dt,
         icon := "<i class=\"" ++ getWeatherIconClass day.weather.icon ++ "\"></i>",
         condition := day.weather.main.getD "undefined",
         tempMax := roundText day.main.temp_max ++
           (if st.currentUnit = "metric" then "°C" else "°F"),
         tempMin := roundText day.main.temp_min ++
           (if st.currentUnit = "metric" then "°C" else "°F") } : ForecastItem) := by
    funext day
    unfold forecastItem getWeatherIcon tempUnit
    cases day.weather.main <;> rfl
  rw [updateForecast_container, hitem]
  refine ⟨?_, ?_⟩
  · rw [List.length_map, slice_one_six_length]
  · intro i hi
    refine ⟨by omega, ?_⟩
    rw [List.getElem?_map, slice_one_six_getElem? _ _ (by omega)]

/-- Instance of C3: the six entries of `sampleForecast`, over a container
that holds a stale item, give five items; the first shows the entry at index
1 (code 3, 21 and 11 degrees) and not the entry at index 0 (code 0, 20 and 10
degrees), the last shows the entry at index 5. -/
theorem updateForecast_renders_witness :
    1 ≤ sampleForecast.list.length ∧
    (updateForecast sampleEnv sampleForecast staleForecastState).dom.forecastContainer.length
      = 5 ∧
    (updateForecast sampleEnv sampleForecast staleForecastState).dom.forecastContainer[0]?
      = some { dayName := "Thu", icon := "<i class=\"fas fa-cloud\"></i>",
               condition := "Clouds", tempMax := "21°C", tempMin := "11°C" } ∧
    (updateForecast sampleEnv sampleForecast staleForecastState).dom.forecastContainer[4]?
      = some { dayName := "Thu", icon := "<i class=\"fas fa-smog\"></i>",
               condition := "Mist", tempMax := "12°C", tempMin := "6°C" } :=
  ⟨by decide,
    (updateForecast_renders sampleEnv sampleForecast staleForecastState (by decide)).1.trans
      (by decide),
    ((updateForecast_renders sampleEnv sampleForecast staleForecastState (by decide)).2 0
      (by decide)).2.trans (by with_unfolding_all decide),
    ((updateForecast_renders sampleEnv sampleForecast staleForecastState (by decide)).2 4
      (by decide)).2.trans (by with_unfolding_all decide)⟩

/-- C4 (the code at the failing input): for a weather response whose current
weather code is 3, the rendered condition label is "Overcast", the category
of the code is "Clouds" and the theme of that category is scattered-clouds,
and yet after `updateCurrentWeather` the body carries no theme class at all:
the `weather` entry of `currentData` has no `main`, so `updateBackground`
receives `undefined`.  So it is after a search for London whose weather
response has the current code 3. -/
theorem current_theme_not_applied (env : Env) (cur : RawCurrent)
    (locationName country : Option String) (st : State) :
    (updateCurrentWeather env
      (buildCurrentData { cur with weather_code := some 3 } locationName country)
      st).dom.weatherCondition = "Overcast" ∧
    getWeatherCondition (some 3) = "Clouds" ∧
    weatherClass (some (getWeatherCondition (some 3))) = "scattered-clouds" ∧
    (buildCurrentData { cur with weather_code := some 3 } locationName country
      ).current.weather.main = none ∧
    (∀ c ∈ weatherClasses,
      c ∉ (updateCurrentWeather env
        (buildCurrentData { cur with weather_code := some 3 } locationName country)
        st).dom.bodyClasses) ∧
    londonSearch.dom.location = "London, GB" ∧
    londonSearch.dom.weatherCondition = "Overcast" ∧
    londonSearch.dom.bodyClasses = [] := by
  refine ⟨?_, by decide, by decide, rfl, ?_, by with_unfolding_all decide,
    by with_unfolding_all decide, by with_unfolding_all decide⟩
  · have hd : titleCase (getWeatherDescription (some 3)) = "Overcast" := by decide
    simpa [updateCurrentWeather, updateBackground, buildCurrentData] using hd
  · intro c hc
    exact updateBackground_undefined_no_theme _ c hc

/-- C5 as stated fails: in the forecast built from `sampleDaily` the entry
of the first day (code 0) does not hold the daytime token. -/
theorem forecast_icon_daytime_counterexample :
    ¬ (∀ i : Nat, i < sampleDaily.time.length →
        ∃ day, (buildForecastData sampleEnv sampleDaily).list[i]? = some day ∧
          day.weather.icon = getWeatherIconCode sampleDaily.weather_code[i]? true ∧
          day.weather.icon.toList.getLast? = some 'd') := by
  intro hall
  obtain ⟨day, h1, h2, _⟩ := hall 0 (by decide)
  have e : ((buildForecastData sampleEnv sampleDaily).list[0]?).map
      (fun d => d.weather.icon) = some "01n" := by decide
  rw [h1, Option.map_some', h2] at e
  revert e
  decide

/-- C5 (amended): for every daily entry of a weather response, the icon token
stored in the normalised forecast day is the night variant for that day's
weather code: it equals `getWeatherIconCode(code, false)` and ends in "n". -/
theorem forecast_icon_night_variant (env : Env) (daily : RawDaily) (i : Nat)
    (h : i < daily.time.length) :
    ∃ day, (buildForecastData env daily).list[i]? = some day ∧
      day.weather.icon = getWeatherIconCode daily.weather_code[i]? false ∧
      day.weather.icon.toList.getLast? = some 'n' := by
  have hn : ∀ t ∈ iconTokens false, t.toList.getLast? = some 'n' := by decide
  simp only [buildForecastData, List.getElem?_mapIdx, List.getElem?_eq_getElem h,
    Option.map_some']
  exact ⟨_, rfl, rfl, hn _ (iconCode_mem_iconTokens _ false)⟩

/-- Instance of C5 (amended) at the first day of `sampleDaily`. -/
theorem forecast_icon_night_variant_witness :
    0 < sampleDaily.time.length ∧
    ∃ day, (buildForecastData sampleEnv sampleDaily).list[0]? = some day ∧
      day.weather.icon = getWeatherIconCode sampleDaily.weather_code[0]? false ∧
      day.weather.icon.toList.getLast? = some 'n' :=
  ⟨by decide, forecast_icon_night_variant sampleEnv sampleDaily 0 (by decide)⟩

/-! ## Lemmas on the fetch operations -/

@[simp]
theorem showLoading_log (b : Bool) (st : State) :
    (showLoading b st).log = st.log ++ [Event.loading b] := rfl

@[simp]
theorem showLoading_currentUnit (b : Bool) (st : State) :
    (showLoading b st).currentUnit = st.currentUnit := rfl

@[simp]
theorem showLoading_currentLocation (b : Bool) (st : State) :
    (showLoading b st).currentLocation = st.currentLocation := rfl

@[simp]
theorem showLoading_loadingActive (b : Bool) (st : State) :
    (showLoading b st).dom.loadingActive = b := rfl

@[simp]
theorem showError_log (m : String) (st : State) :
    (showError m st).log = st.log ++ [Event.error m] := rfl

@[simp]
theorem showError_currentUnit (m : String) (st : State) :
    (showError m st).currentUnit = st.currentUnit := rfl

@[simp]
theorem showError_currentLocation (m : String) (st : State) :
    (showError m st).currentLocation = st.currentLocation := rfl

@[simp]
theorem updateCurrentWeather_log (env : Env) (data : CurrentData) (st : State) :
    (updateCurrentWeather env data st).log = st.log := rfl

@[simp]
theorem updateCurrentWeather_currentUnit (env : Env) (data : CurrentData) (st : State) :
    (updateCurrentWeather env data st).currentUnit = st.currentUnit := rfl

@[simp]
theorem updateCurrentWeather_currentLocation (env : Env) (data : CurrentData)
    (st : State) :
    (updateCurrentWeather env data st).currentLocation = st.currentLocation := rfl

@[simp]
theorem updateForecast_log (env : Env) (data : ForecastData) (st : State) :
    (updateForecast env data st).log = st.log := by
  simp [updateForecast, foldl_appendForecastItem]

@[simp]
theorem updateForecast_currentUnit (env : Env) (data : ForecastData) (st : State) :
    (updateForecast env data st).currentUnit = st.currentUnit := by
  simp [updateForecast, foldl_appendForecastItem]

@[simp]
theorem updateForecast_currentLocation (env : Env) (data : ForecastData) (st : State) :
    (updateForecast env data st).currentLocation = st.currentLocation := by
  simp [updateForecast, foldl_appendForecastItem]

/-- When the `try` block of `getWeatherByCoords` completes, it has added no
event and has kept the unit. -/
theorem renderWeather_ok (env : Env) (outcome : WeatherOutcome)
    (locationName country : Option String) (st s : State)
    (h : renderWeather env outcome locationName country st = Except.ok s) :
    s.log = st.log ∧ s.currentUnit = st.currentUnit := by
  unfold renderWeather at h
  split at h
  · cases h
  · cases h
  · cases h
  · split at h
    · cases h
    · split at h
      · cases h
      · simp only [Except.ok.injEq] at h
        subst h
        split <;> simp

@[simp]
theorem logEvent_log (e : Event) (st : State) :
    (logEvent e st).log = st.log ++ [e] := rfl

@[simp]
theorem logEvent_currentUnit (e : Event) (st : State) :
    (logEvent e st).currentUnit = st.currentUnit := rfl

@[simp]
theorem logEvent_currentLocation (e : Event) (st : State) :
    (logEvent e st).currentLocation = st.currentLocation := rfl

@[simp]
theorem logEvent_dom (e : Event) (st : State) :
    (logEvent e st).dom = st.dom := rfl

/-- The function `getWeatherByCoords` with its local definitions unfolded. -/
theorem getWeatherByCoords_eq (env : Env) (lat lon : Rat)
    (locationName country : Option String) (st : State) :
    getWeatherByCoords env lat lon locationName country st =
      showLoading false
        (match renderWeather env (env.forecast (weatherRequest lat lon st.currentUnit))
            locationName country
            (logEvent (Event.weatherRequest (weatherRequest lat lon st.currentUnit))
              (showLoading true st)) with
          | Except.ok s => s
          | Except.error _ =>
            showError "Unable to fetch weather data. Please try again."
              (logEvent (Event.weatherRequest (weatherRequest lat lon st.currentUnit))
                (showLoading true st))) := rfl

/-- The events of `getWeatherByCoords`: loading on, one weather query under
the current unit, possibly one error notice, loading off. -/
theorem getWeatherByCoords_log (env : Env) (lat lon : Rat)
    (locationName country : Option String) (st : State) :
    ∃ mid : List Event,
      (mid = [] ∨ mid = [Event.error "Unable to fetch weather data. Please try again."]) ∧
      (getWeatherByCoords env lat lon locationName country st).log =
        st.log ++ (Event.loading true ::
          Event.weatherRequest (weatherRequest lat lon st.currentUnit) ::
          (mid ++ [Event.loading false])) := by
  rw [getWeatherByCoords_eq]
  cases hr : renderWeather env (env.forecast (weatherRequest lat lon st.currentUnit))
      locationName country
      (logEvent (Event.weatherRequest (weatherRequest lat lon st.currentUnit))
        (showLoading true st)) with
  | error e =>
    exact ⟨_, Or.inr rfl, by simp⟩
  | ok s =>
    have hs := (renderWeather_ok _ _ _ _ _ _ hr).1
    exact ⟨[], Or.inl rfl, by simp [hs]⟩

theorem getWeatherByCoords_currentUnit (env : Env) (lat lon : Rat)
    (locationName country : Option String) (st : State) :
    (getWeatherByCoords env lat lon locationName country st).currentUnit = st.currentUnit := by
  rw [getWeatherByCoords_eq]
  cases hr : renderWeather env (env.forecast (weatherRequest lat lon st.currentUnit))
      locationName country
      (logEvent (Event.weatherRequest (weatherRequest lat lon st.currentUnit))
        (showLoading true st)) with
  | error e => simp
  | ok s =>
    have hs := (renderWeather_ok _ _ _ _ _ _ hr).2
    simp [hs]

theorem getWeatherByCoords_loadingActive (env : Env) (lat lon : Rat)
    (locationName country : Option String) (st : State) :
    (getWeatherByCoords env lat lon locationName country st).dom.loadingActive = false := by
  rw [getWeatherByCoords_eq]
  simp

theorem getCoordinatesForLocation_state (env : Env) (location : String) (st : State) :
    (getCoordinatesForLocation env location st).2 =
      logEvent (Event.geocodeRequest location) st := by
  unfold getCoordinatesForLocation
  cases parseGeocoding (env.geocode location) <;> rfl

theorem getCoordinatesForLocation_result (env : Env) (location : String) (st : State) :
    (getCoordinatesForLocation env location st).1 =
      match parseGeocoding (env.geocode location) with
      | Except.ok loc => Except.ok loc
      | Except.error _ => Except.error "Could not find the specified location" := by
  unfold getCoordinatesForLocation
  cases parseGeocoding (env.geocode location) <;> rfl

/-- The state after `getWeatherByLocation` when geocoding fails. -/
theorem getWeatherByLocation_of_error (env : Env) (location : String) (st : State) (e : String)
    (h : parseGeocoding (env.geocode location) = Except.error e) :
    getWeatherByLocation env location st =
      { st with
        dom := { st.dom with
          loadingActive := false,
          errorMessage := some "Could not find the specified location. Please try again." },
        log := st.log ++ [Event.loading true, Event.geocodeRequest location,
          Event.error "Could not find the specified location. Please try again.",
          Event.loading false] } := by
  simp [getWeatherByLocation, getCoordinatesForLocation, h, showLoading, showError, logEvent]

/-- The state after `getWeatherByLocation` when geocoding succeeds. -/
theorem getWeatherByLocation_of_ok (env : Env) (location : String) (st : State) (l : Location)
    (h : parseGeocoding (env.geocode location) = Except.ok l) :
    getWeatherByLocation env location st =
      showLoading false
        { getWeatherByCoords env l.latitude l.longitude l.name l.country
            (logEvent (Event.geocodeRequest location) (showLoading true st)) with
          dom := { (getWeatherByCoords env l.latitude l.longitude l.name l.country
            (logEvent (Event.geocodeRequest location) (showLoading true st))).dom with
            locationInput := "" } } := by
  simp [getWeatherByLocation, getCoordinatesForLocation, h]

theorem getWeatherByLocation_currentUnit (env : Env) (location : String) (st : State) :
    (getWeatherByLocation env location st).currentUnit = st.currentUnit := by
  cases h : parseGeocoding (env.geocode location) with
  | error e => rw [getWeatherByLocation_of_error _ _ _ _ h]
  | ok l =>
    rw [getWeatherByLocation_of_ok _ _ _ _ h]
    simp [getWeatherByCoords_currentUnit]

theorem getWeatherByLocation_loadingActive (env : Env) (location : String) (st : State) :
    (getWeatherByLocation env location st).dom.loadingActive = false := by
  unfold getWeatherByLocation
  simp

/-- The events of `getWeatherByLocation`: either geocoding fails and there is
no weather query, or it yields a location and `getWeatherByCoords` runs once
for it. -/
theorem getWeatherByLocation_log (env : Env) (location : String) (st : State) :
    ((∃ e, parseGeocoding (env.geocode location) = Except.error e) ∧
      (getWeatherByLocation env location st).log =
        st.log ++ [Event.loading true, Event.geocodeRequest location,
          Event.error "Could not find the specified location. Please try again.",
          Event.loading false]) ∨
    (∃ (l : Location) (mid : List Event),
      parseGeocoding (env.geocode location) = Except.ok l ∧
      (mid = [] ∨ mid = [Event.error "Unable to fetch weather data. Please try again."]) ∧
      (getWeatherByLocation env location st).log =
        st.log ++ (Event.loading true :: Event.geocodeRequest location ::
          Event.loading true ::
          Event.weatherRequest (weatherRequest l.latitude l.longitude st.currentUnit) ::
          (mid ++ [Event.loading false, Event.loading false]))) := by
  cases h : parseGeocoding (env.geocode location) with
  | error e =>
    left
    refine ⟨⟨e, rfl⟩, ?_⟩
    rw [getWeatherByLocation_of_error _ _ _ _ h]
  | ok l =>
    right
    obtain ⟨mid, hmid, hlog⟩ := getWeatherByCoords_log env l.latitude l.longitude l.name
      l.country (logEvent (Event.geocodeRequest location) (showLoading true st))
    refine ⟨l, mid, rfl, hmid, ?_⟩
    rw [getWeatherByLocation_of_ok _ _ _ _ h]
    simp only [showLoading_log]
    rw [hlog]
    simp

theorem truthy_ne_empty (v : Option String) (h : truthy v = true) : v ≠ some "" := by
  intro hv
  subst hv
  simp [truthy] at h

theorem renderWeather_ok_location (env : Env) (outcome : WeatherOutcome)
    (locationName country : Option String) (st s : State)
    (h : renderWeather env outcome locationName country st = Except.ok s)
    (hst : st.currentLocation ≠ some "") : s.currentLocation ≠ some "" := by
  unfold renderWeather at h
  split at h
  · cases h
  · cases h
  · cases h
  · split at h
    · cases h
    · split at h
      · cases h
      · simp only [Except.ok.injEq] at h
        subst h
        split
        · next ht => exact truthy_ne_empty _ ht
        · simpa using hst

theorem getWeatherByCoords_location_ne_empty (env : Env) (lat lon : Rat)
    (locationName country : Option String) (st : State)
    (hst : st.currentLocation ≠ some "") :
    (getWeatherByCoords env lat lon locationName country st).currentLocation ≠ some "" := by
  rw [getWeatherByCoords_eq]
  cases hr : renderWeather env (env.forecast (weatherRequest lat lon st.currentUnit))
      locationName country
      (logEvent (Event.weatherRequest (weatherRequest lat lon st.currentUnit))
        (showLoading true st)) with
  | error e => simpa using hst
  | ok s =>
    have hs := renderWeather_ok_location _ _ _ _ _ _ hr (by simpa using hst)
    simpa using hs

theorem getWeatherByLocation_location_ne_empty (env : Env) (location : String) (st : State)
    (hst : st.currentLocation ≠ some "") :
    (getWeatherByLocation env location st).currentLocation ≠ some "" := by
  cases h : parseGeocoding (env.geocode location) with
  | error e =>
    rw [getWeatherByLocation_of_error _ _ _ _ h]
    exact hst
  | ok l =>
    rw [getWeatherByLocation_of_ok _ _ _ _ h]
    have := getWeatherByCoords_location_ne_empty env l.latitude l.longitude l.name l.country
      (logEvent (Event.geocodeRequest location) (showLoading true st)) (by simpa using hst)
    simpa using this

theorem step_location_ne_empty (env : Env) (a : Action) (st : State)
    (hst : st.currentLocation ≠ some "") : (step env a st).currentLocation ≠ some "" := by
  cases a with
  | search text =>
    simp only [step, searchSubmit]
    split
    · exact hst
    · exact getWeatherByLocation_location_ne_empty _ _ _ hst
  | geolocate =>
    simp only [step, getLocation]
    split
    · exact getWeatherByCoords_location_ne_empty _ _ _ _ _ _ (by simpa using hst)
    · exact getWeatherByLocation_location_ne_empty _ _ _ (by simpa using hst)
    · exact getWeatherByLocation_location_ne_empty _ _ _ (by simpa using hst)
  | toggle unit =>
    simp only [step, unitToggleClick]
    split
    · split
      · split
        · next hl => simpa [hl] using hst
        · exact getWeatherByLocation_location_ne_empty _ _ _ hst
      · next hl => simp [hl]
    · exact hst

/-- In every state that user actions reach from the initial state,
`currentLocation` is `null` or a name that is not empty: a stored location
is always truthy. -/
theorem run_location_ne_empty (dom : Dom) (steps : List (Env × Action)) :
    (run (initialState dom) steps).currentLocation ≠ some "" := by
  have key : ∀ (steps : List (Env × Action)) (st : State),
      st.currentLocation ≠ some "" → (run st steps).currentLocation ≠ some "" := by
    intro steps
    induction steps with
    | nil => intro st hst; exact hst
    | cons p rest ih =>
      intro st hst
      exact ih _ (step_location_ne_empty p.1 p.2 st hst)
  exact key steps _ (by simp [initialState])

theorem newEvents_of_log (st r : State) (evs : List Event) (h : r.log = st.log ++ evs) :
    newEvents st r = evs := by
  unfold newEvents
  rw [h, List.drop_left]

/-- The operation `getWeatherByCoords` is its part before the request
followed by its part after the response. -/
theorem getWeatherByCoords_pending_resume (env : Env) (lat lon : Rat)
    (locationName country : Option String) (st : State) :
    getWeatherByCoords env lat lon locationName country st =
      getWeatherByCoordsResume env (env.forecast (weatherRequest lat lon st.currentUnit))
        locationName country (getWeatherByCoordsPending lat lon st) := rfl

/-- The operation `getWeatherByLocation` is its part before the geocoding
request followed by its part after the response. -/
theorem getWeatherByLocation_pending_resume (env : Env) (location : String) (st : State) :
    getWeatherByLocation env location st =
      getWeatherByLocationResume env (env.geocode location)
        (getWeatherByLocationPending location st) := by
  unfold getWeatherByLocation getWeatherByLocationResume getWeatherByLocationPending
    getCoordinatesForLocation
  cases parseGeocoding (env.geocode location) <;> rfl

/-- C9: for every invocation of `getWeatherByLocation` and of
`getWeatherByCoords`, whatever the environment answers: in the state in which
the operation sends its first request and waits for the response, the loading
indicator is active (the class `active` is set) and nothing but switching it
on has happened before the request; the operation continues from that state;
and in the state it ends in, the indicator is inactive, switching it off being
the last thing that happened. -/
theorem loading_indicator_brackets_fetch (env : Env) (st : State) (location : String)
    (lat lon : Rat) (locationName country : Option String) :
    ((getWeatherByLocationPending location st).dom.loadingActive = true ∧
      newEvents st (getWeatherByLocationPending location st) =
        [Event.loading true, Event.geocodeRequest location] ∧
      getWeatherByLocation env location st =
        getWeatherByLocationResume env (env.geocode location)
          (getWeatherByLocationPending location st) ∧
      (getWeatherByLocation env location st).dom.loadingActive = false ∧
      ∃ rest, newEvents st (getWeatherByLocation env location st) =
        Event.loading true :: Event.geocodeRequest location ::
          (rest ++ [Event.loading false])) ∧
    ((getWeatherByCoordsPending lat lon st).dom.loadingActive = true ∧
      newEvents st (getWeatherByCoordsPending lat lon st) =
        [Event.loading true, Event.weatherRequest (weatherRequest lat lon st.currentUnit)] ∧
      getWeatherByCoords env lat lon locationName country st =
        getWeatherByCoordsResume env (env.forecast (weatherRequest lat lon st.currentUnit))
          locationName country (getWeatherByCoordsPending lat lon st) ∧
      (getWeatherByCoords env lat lon locationName country st).dom.loadingActive = false ∧
      ∃ rest, newEvents st (getWeatherByCoords env lat lon locationName country st) =
        Event.loading true :: Event.weatherRequest (weatherRequest lat lon st.currentUnit) ::
          (rest ++ [Event.loading false])) := by
  refine ⟨⟨rfl, ?_, getWeatherByLocation_pending_resume env location st,
      getWeatherByLocation_loadingActive env location st, ?_⟩,
    ⟨rfl, ?_, getWeatherByCoords_pending_resume env lat lon locationName country st,
      getWeatherByCoords_loadingActive env lat lon locationName country st, ?_⟩⟩
  · exact newEvents_of_log _ _ _ (by simp [getWeatherByLocationPending])
  · rcases getWeatherByLocation_log env location st with ⟨_, hlog⟩ | ⟨l, mid, _, _, hlog⟩
    · exact ⟨[Event.error "Could not find the specified location. Please try again."],
        newEvents_of_log _ _ _ hlog⟩
    · refine ⟨Event.loading true ::
          Event.weatherRequest (weatherRequest l.latitude l.longitude st.currentUnit) ::
          (mid ++ [Event.loading false]), ?_⟩
      rw [newEvents_of_log _ _ _ hlog]
      simp
  · exact newEvents_of_log _ _ _ (by simp [getWeatherByCoordsPending])
  · obtain ⟨mid, _, hlog⟩ := getWeatherByCoords_log env lat lon locationName country st
    exact ⟨mid, newEvents_of_log _ _ _ hlog⟩

/-- C7: when the geocoding response has no `results` property or an empty
`results` array, `getCoordinatesForLocation` fails with the error
'Could not find the specified location'; `getWeatherByLocation` then shows
the notice and switches the loading indicator off, sends no weather query
(`getWeatherByCoords` does not run), and leaves the rendered weather and the
session state as they were. -/
theorem geocode_not_found_no_weather_fetch (env : Env) (location : String) (st : State)
    (h : env.geocode location = GeoOutcome.body none ∨
      env.geocode location = GeoOutcome.body (some [])) :
    (getCoordinatesForLocation env location st).1
      = Except.error "Could not find the specified location" ∧
    newEvents st (getWeatherByLocation env location st) =
      [Event.loading true, Event.geocodeRequest location,
        Event.error "Could not find the specified location. Please try again.",
        Event.loading false] ∧
    (∀ req, Event.weatherRequest req ∉ newEvents st (getWeatherByLocation env location st)) ∧
    renderedWeather (getWeatherByLocation env location st).dom = renderedWeather st.dom ∧
    (getWeatherByLocation env location st).currentUnit = st.currentUnit ∧
    (getWeatherByLocation env location st).currentLocation = st.currentLocation := by
  have hp : parseGeocoding (env.geocode location) = Except.error "Location not found" := by
    rcases h with h | h <;> rw [h] <;> rfl
  have hev := newEvents_of_log st _ _
    (congrArg State.log (getWeatherByLocation_of_error env location st _ hp))
  refine ⟨?_, hev, ?_, ?_, ?_, ?_⟩
  · rw [getCoordinatesForLocation_result, hp]
  · intro req
    rw [hev]
    simp
  · rw [getWeatherByLocation_of_error env location st _ hp]
    rfl
  · rw [getWeatherByLocation_of_error env location st _ hp]
  · rw [getWeatherByLocation_of_error env location st _ hp]

/-- Instance of C7: the sample geocoder answers "Atlantis" with an empty
`results` array. -/
theorem geocode_not_found_no_weather_fetch_witness :
    (sampleEnv.geocode "Atlantis" = GeoOutcome.body none ∨
      sampleEnv.geocode "Atlantis" = GeoOutcome.body (some [])) ∧
    (getCoordinatesForLocation sampleEnv "Atlantis" londonState).1
      = Except.error "Could not find the specified location" ∧
    newEvents londonState (getWeatherByLocation sampleEnv "Atlantis" londonState) =
      [Event.loading true, Event.geocodeRequest "Atlantis",
        Event.error "Could not find the specified location. Please try again.",
        Event.loading false] :=
  ⟨Or.inr rfl,
    (geocode_not_found_no_weather_fetch sampleEnv "Atlantis" londonState (Or.inr rfl)).1,
    (geocode_not_found_no_weather_fetch sampleEnv "Atlantis" londonState (Or.inr rfl)).2.1⟩

/-- C6: the click handler of a unit button with `data-unit` equal to `unit`.
If `unit` differs from `currentUnit` and `currentLocation` is `null`, the
handler sets `currentUnit` and the active button and does nothing else: no
event, so no network call.  If `unit` differs and `currentLocation` holds a
(non-empty) name, the handler sets `currentUnit` and runs
`getWeatherByLocation` once for the stored name from the state that already
has the new unit: exactly one geocoding query, for the stored location, and
at most one weather query, which asks for the units of the new unit
(celsius and ms for "metric", fahrenheit and mph otherwise); exactly one, at
the coordinates found, when geocoding yields a location.  If `unit` equals
`currentUnit`, the state is unchanged. -/
theorem unit_toggle_refetch (env : Env) (unit : String) (st : State) :
    (unit ≠ st.currentUnit → st.currentLocation = none →
      unitToggleClick env unit st =
        { st with currentUnit := unit,
                  dom := { st.dom with activeUnitButtons := [unit] } } ∧
      (unitToggleClick env unit st).currentUnit = unit ∧
      newEvents st (unitToggleClick env unit st) = []) ∧
    (∀ loc : String, unit ≠ st.currentUnit → st.currentLocation = some loc → loc ≠ "" →
      unitToggleClick env unit st =
        getWeatherByLocation env loc
          { st with currentUnit := unit,
                    dom := { st.dom with activeUnitButtons := [unit] } } ∧
      (unitToggleClick env unit st).currentUnit = unit ∧
      (newEvents st (unitToggleClick env unit st)).filter Event.isGeocodeRequest
        = [Event.geocodeRequest loc] ∧
      ((newEvents st (unitToggleClick env unit st)).filter Event.isWeatherRequest = [] ∨
        ∃ lat lon, (newEvents st (unitToggleClick env unit st)).filter Event.isWeatherRequest
          = [Event.weatherRequest
              { latitude := lat, longitude := lon,
                temperature_unit := if unit = "metric" then "celsius" else "fahrenheit",
                wind_speed_unit := if unit = "metric" then "ms" else "mph" }]) ∧
      (∀ l : Location, parseGeocoding (env.geocode loc) = Except.ok l →
        (newEvents st (unitToggleClick env unit st)).filter Event.isWeatherRequest
          = [Event.weatherRequest
              { latitude := l.latitude, longitude := l.longitude,
                temperature_unit := if unit = "metric" then "celsius" else "fahrenheit",
                wind_speed_unit := if unit = "metric" then "ms" else "mph" }])) ∧
    (unit = st.currentUnit → unitToggleClick env unit st = st) := by
  refine ⟨?_, ?_, ?_⟩
  · intro hne hloc
    have e : unitToggleClick env unit st =
        { st with currentUnit := unit,
                  dom := { st.dom with activeUnitButtons := [unit] } } := by
      simp [unitToggleClick, hne, hloc]
    refine ⟨e, ?_, ?_⟩
    · rw [e]
    · rw [e]
      simp [newEvents]
  · intro loc hne hloc hloc2
    have e : unitToggleClick env unit st =
        getWeatherByLocation env loc
          { st with currentUnit := unit,
                    dom := { st.dom with activeUnitButtons := [unit] } } := by
      simp [unitToggleClick, hne, hloc, hloc2]
    refine ⟨e, ?_, ?_⟩
    · rw [e, getWeatherByLocation_currentUnit]
    · rw [e]
      rcases getWeatherByLocation_log env loc
          { st with currentUnit := unit,
                    dom := { st.dom with activeUnitButtons := [unit] } } with
        ⟨⟨err, herr⟩, hlog⟩ | ⟨l, mid, hl, hmid, hlog⟩
      · have hev := newEvents_of_log st _ _ hlog
        rw [hev]
        refine ⟨by simp [Event.isGeocodeRequest], Or.inl (by simp [Event.isWeatherRequest]), ?_⟩
        intro l hl
        rw [hl] at herr
        cases herr
      · have hev := newEvents_of_log st _ _ hlog
        rw [hev]
        have hw : List.filter Event.isWeatherRequest
            (Event.loading true :: Event.geocodeRequest loc :: Event.loading true ::
              Event.weatherRequest (weatherRequest l.latitude l.longitude unit) ::
              (mid ++ [Event.loading false, Event.loading false]))
            = [Event.weatherRequest
                { latitude := l.latitude, longitude := l.longitude,
                  temperature_unit := if unit = "metric" then "celsius" else "fahrenheit",
                  wind_speed_unit := if unit = "metric" then "ms" else "mph" }] := by
          rcases hmid with hmid | hmid <;> subst hmid <;>
            simp [Event.isWeatherRequest, weatherRequest]
        refine ⟨?_, Or.inr ⟨l.latitude, l.longitude, hw⟩, ?_⟩
        · rcases hmid with hmid | hmid <;> subst hmid <;> simp [Event.isGeocodeRequest]
        · intro l2 hl2
          rw [hl] at hl2
          cases hl2
          exact hw
  · intro heq
    simp [unitToggleClick, heq]

/-- Instance of C6: from a state that knows London under the metric unit, a
click on the imperial button makes the unit imperial and sends one geocoding
query for London and one weather query at the coordinates of London that
asks for fahrenheit and mph. -/
theorem unit_toggle_refetch_witness :
    ("imperial" ≠ londonState.currentUnit ∧ londonState.currentLocation = some "London" ∧
      "London" ≠ "") ∧
    (unitToggleClick sampleEnv "imperial" londonState).currentUnit = "imperial" ∧
    (newEvents londonState (unitToggleClick sampleEnv "imperial" londonState)).filter
        Event.isGeocodeRequest = [Event.geocodeRequest "London"] ∧
    (newEvents londonState (unitToggleClick sampleEnv "imperial" londonState)).filter
        Event.isWeatherRequest
      = [Event.weatherRequest
          { latitude := 103 / 2, longitude := -3 / 25,
            temperature_unit := "fahrenheit", wind_speed_unit := "mph" }] :=
  ⟨⟨by decide, rfl, by decide⟩,
    ((unit_toggle_refetch sampleEnv "imperial" londonState).2.1 "London"
      (by decide) rfl (by decide)).2.1,
    ((unit_toggle_refetch sampleEnv "imperial" londonState).2.1 "London"
      (by decide) rfl (by decide)).2.2.1,
    (((unit_toggle_refetch sampleEnv "imperial" londonState).2.1 "London"
      (by decide) rfl (by decide)).2.2.2.2
      { latitude := 103 / 2, longitude := -3 / 25, name := some "London",
        country := some "GB" } rfl).trans (by with_unfolding_all decide)⟩

/-- C8 (the code at the failing input): after a successful geolocation and a
click on the imperial button, `currentUnit` is "imperial", but
`currentLocation` is still `null`, the only weather query of the history
asked for Celsius, and the temperature on the page still carries the metric
suffix: the rendered weather is stale. -/
theorem stale_units_after_geolocate_then_toggle :
    geolocateThenToggle.currentUnit = "imperial" ∧
    geolocateThenToggle.currentLocation = none ∧
    geolocateThenToggle.dom.location = "Current Location" ∧
    geolocateThenToggle.dom.currentTemp = "20°C" ∧
    geolocateThenToggle.dom.activeUnitButtons = ["imperial"] ∧
    geolocateThenToggle.log.filter Event.isWeatherRequest =
      [Event.weatherRequest { latitude := 48, longitude := 2,
                              temperature_unit := "celsius", wind_speed_unit := "ms" }] := by
  with_unfolding_all decide

end Weatherly
